import Mathlib

/-!
Verification of the curator repository-builder job (`repobuilder` package).

The Go source is shallowly embedded: pure path/string manipulation is
translated directly; filesystem state is an explicit record of file and
directory paths; external collaborators (the S3 bucket client, the
format-specific inject/rebuild builder implementations, and the signer
subprocess) are parameters supplying the outcome of each call, exactly at
the call boundaries the Go code uses.
-/

namespace RepoBuilder

/-! ## String helpers (models of Go's strings / path/filepath functions) -/

/-- Does `p` lead (start) the list `s`?  Model of a pattern match used by
`strings.Replace`. -/
def leadsWith : List Char → List Char → Bool
  | [], _ => true
  | _ :: _, [] => false
  | a :: as, b :: bs => a = b && leadsWith as bs

/-- `strings.Replace(s, pat, rep, 1)` on character lists: replace the first
occurrence of `pat` by `rep`; when `pat` is empty Go inserts `rep` before the
first character. -/
def replaceFirstL (pat rep : List Char) : List Char → List Char
  | [] => if pat.isEmpty then rep else []
  | c :: cs =>
    if pat.isEmpty then rep ++ c :: cs
    else if leadsWith pat (c :: cs) then rep ++ (c :: cs).drop pat.length
    else c :: replaceFirstL pat rep cs

/-- `strings.Replace(s, pat, rep, 1)` as used at job.go line 153. -/
def replaceFirst (s pat rep : String) : String :=
  ⟨replaceFirstL pat.data rep.data s.data⟩

/-- `strings.HasSuffix s suffix`. -/
def strEndsWith (s suffix : String) : Bool :=
  leadsWith suffix.data.reverse s.data.reverse

/-- Does `sub` occur as a contiguous substring of `s`? -/
def containsSub (s sub : String) : Bool :=
  go s.data
where go : List Char → Bool
  | [] => leadsWith sub.data []
  | c :: cs => leadsWith sub.data (c :: cs) || go cs

/-- The cutset of `strings.Trim(out, " \n\t")` at job.go line 316. -/
def isTrimChar (c : Char) : Bool :=
  c = ' ' || c = '\n' || c = '\t'

/-- `strings.Trim(s, " \n\t")`: drop leading and trailing blanks. -/
def trimOutput (s : String) : String :=
  ⟨((s.data.dropWhile isTrimChar).reverse.dropWhile isTrimChar).reverse⟩

/-- Split a character list at every `/` (the semantics of
`strings.Split(s, "/")`). -/
def splitSlash : List Char → List (List Char)
  | [] => [[]]
  | c :: cs =>
    if c = '/' then [] :: splitSlash cs
    else
      match splitSlash cs with
      | [] => [[c]]
      | p :: ps => (c :: p) :: ps

/-- Join components with `/`. -/
def joinSlash : List (List Char) → List Char
  | [] => []
  | [x] => x
  | x :: xs => x ++ '/' :: joinSlash xs

/-- `filepath.Base` for the slash-separated paths the job manipulates
(no `..` cleaning, which `Base` does not do either). -/
def basename (p : String) : String :=
  if p = "" then "."
  else
    match ((splitSlash p.data).filter (fun s => !s.isEmpty)).getLast? with
    | none => "/"
    | some x => ⟨x⟩

/-- `filepath.Dir` for the relative slash-separated paths used here
(absolute-root edge cases such as `/a` do not arise in the claims). -/
def dirname (p : String) : String :=
  match splitSlash p.data with
  | [] => "."
  | [_] => "."
  | parts => ⟨joinSlash parts.dropLast⟩

/-- `len(s)` in Go counts bytes; the paths manipulated here are ASCII, so
characters coincide with bytes. -/
def strLen (s : String) : Nat := s.data.length

/-- Go's slice `s[n:]` on the ASCII paths used here. -/
def strDrop (s : String) (n : Nat) : String := ⟨s.data.drop n⟩

/-- Membership of a string in a list (the checks `os.Stat` and the
filesystem model perform). -/
def memStr (p : String) : List String → Bool
  | [] => false
  | q :: qs => p = q || memStr p qs

/-- `filepath.Join a b` for the ordinary components used by the job. -/
def joinPath (a b : String) : String :=
  if a = "" then b else if b = "" then a else a ++ "/" ++ b

/-! ## Filesystem model

An explicit record of the regular files and directories that exist.
`os.Stat` succeeds on either kind; `os.Remove`, `os.Rename` and `os.Link`
act on regular files at the call sites embedded below. -/

structure FS where
  files : List String
  dirs : List String
deriving DecidableEq

/-- `os.Stat p` succeeds (the path exists as a file or a directory). -/
def FS.statExists (fs : FS) (p : String) : Bool :=
  memStr p fs.files || memStr p fs.dirs

/-- `os.MkdirAll p`: ensure the directory exists. -/
def FS.addDir (fs : FS) (p : String) : FS :=
  if memStr p fs.dirs then fs else { fs with dirs := p :: fs.dirs }

/-- Create a regular file at `p` (the effect of a successful `os.Link`). -/
def FS.addFile (fs : FS) (p : String) : FS :=
  if memStr p fs.files then fs else { fs with files := p :: fs.files }

/-- `os.Remove p` on a regular file: delete it if present (the embedding
records separately whether the call was attempted and would fail). -/
def FS.removeFile (fs : FS) (p : String) : FS :=
  { fs with files := fs.files.filter (fun q => q ≠ p) }

/-- `os.Rename a b` when `a` exists: move the file, replacing any file at
`b`. -/
def FS.renameFile (fs : FS) (a b : String) : FS :=
  { fs with files := b :: fs.files.filter (fun q => q ≠ a && q ≠ b) }

/-! ## Data model (config.go / job.go structures) -/

/-- The repository format tag; `other` covers any unsupported `Type`
string, as in `setup`'s final error branch. -/
inductive RepoType
  | DEB
  | RPM
  | other (s : String)
deriving DecidableEq

/-- The classification interface of `bond.MongoDBVersion` that the job
consumes.  The version parser itself lives in the external `bond`
collaborator; the job only reads these derived attributes, so the
embedding quantifies over them directly: `ver` is `release.String()`,
`series` is `release.Series()`, `stableSeries` is
`release.StableReleaseSeries()`, and the three flags are the
classification predicates. -/
structure MongoDBVersion where
  ver : String
  series : String
  stableSeries : String
  isDevelopmentBuild : Bool
  isReleaseCandidate : Bool
  isDevelopmentSeries : Bool
deriving DecidableEq

/-- `RepositoryDefinition`: the distro identity and layout read by the job. -/
structure RepositoryDefinition where
  name : String
  type : RepoType
  bucket : String
  region : String
  repos : List String
deriving DecidableEq

/-- `RepositoryConfig`: shared read-only configuration. -/
structure RepositoryConfig where
  workSpace : String
  dryRun : Bool
  verbose : Bool
  notaryURL : String
deriving DecidableEq

/-- The environment variables read by `signFile`; `os.Getenv` yields `""`
for an unset variable. -/
structure SignEnv where
  notaryKeyName : String
  notaryToken : String
  notaryTokenDebLegacy : String
deriving DecidableEq

/-! ## Signing subsystem (job.go `signFile`, lines 229-343) -/

/-- Key and token selection, job.go lines 234-246: the `NOTARY_KEY_NAME`
override wins; otherwise DEB legacy series use the fixed key `richard`
with the legacy token `NOTARY_TOKEN_DEB_LEGACY`; otherwise the key is
derived from the stable release series and the primary token is kept. -/
def selectKeyToken (env : SignEnv) (dtype : RepoType) (release : MongoDBVersion) :
    String × String :=
  if env.notaryKeyName = "" then
    if dtype = RepoType.DEB ∧ (release.series = "3.0" ∨ release.series = "2.6") then
      ("richard", env.notaryTokenDebLegacy)
    else
      ("server-" ++ release.stableSeries, env.notaryToken)
  else
    (env.notaryKeyName, env.notaryToken)

/-- The error of job.go lines 248-251 (`fmt.Sprintln` joins with spaces and
appends a newline). -/
def notaryTokenMissingMsg : String :=
  "the notary service auth token (NOTARY_TOKEN) is not defined in the environment\n"

/-- The notary-client argument list, job.go lines 253-261, 284-285 and 302. -/
def signArgs (keyName token notaryURL archiveExtension : String) (overwrite : Bool)
    (fileName : String) : List String :=
  (["notary-client.py",
    "--key-name", keyName,
    "--auth-token", token,
    "--comment", "\"curator package signing\"",
    "--notary-url", notaryURL,
    "--archive-file-ext", archiveExtension,
    "--outputs", "sig"] ++
   (if overwrite then ["--package-file-suffix", ""] else [])) ++
  [basename fileName]

/-- Outcome of the signer subprocess (`cmd.CombinedOutput`): exit status
and combined stdout/stderr text. -/
structure ProcOutcome where
  ok : Bool
  out : String
deriving DecidableEq

/-- The observable result of one `signFile` call: the returned error, the
command actually launched (empty when none was), its working directory,
the filesystem afterwards, the job's `Output` map afterwards, and the
trimmed combined output carried in the log message for the attempt. -/
structure SignResult where
  err : Option String
  launched : Bool
  cmd : List String
  cmdDir : String
  fs : FS
  output : List (String × String)
  loggedOutput : Option String
deriving DecidableEq

/-- `repoBuilderJob.signFile`, job.go lines 229-343.  After key/token
selection, a missing token returns early; otherwise, when `overwrite` is
false the stale `fileName + "." + archiveExtension` artifact is
best-effort removed (failure only warned), the subprocess runs in the
file's directory on its base name, its combined output is trimmed and
logged, and a non-zero exit is wrapped as an error.  The job's `Output`
map (`jobOutput`) is threaded through unchanged, exactly as in the
source, which never writes to it. -/
def signFile (env : SignEnv) (dtype : RepoType) (release : MongoDBVersion)
    (conf : RepositoryConfig) (proc : ProcOutcome)
    (jobOutput : List (String × String)) (fs : FS)
    (fileName archiveExtension : String) (overwrite : Bool) : SignResult :=
  let kt := selectKeyToken env dtype release
  if kt.2 = "" then
    { err := some notaryTokenMissingMsg, launched := false, cmd := [], cmdDir := "",
      fs := fs, output := jobOutput, loggedOutput := none }
  else
    let fs1 := if overwrite then fs
      else fs.removeFile (fileName ++ "." ++ archiveExtension)
    let args := signArgs kt.1 kt.2 conf.notaryURL archiveExtension overwrite fileName
    let outputText := trimOutput proc.out
    if proc.ok then
      { err := none, launched := true, cmd := args, cmdDir := dirname fileName,
        fs := fs1, output := jobOutput, loggedOutput := some outputText }
    else
      { err := some "problem with notary service client signing file", launched := true,
        cmd := args, cmdDir := dirname fileName, fs := fs1, output := jobOutput,
        loggedOutput := some outputText }

/-! ## Package injection (job.go `linkPackages`, lines 117-203) -/

/-- The mutable state threaded through `linkPackages`: the filesystem, the
catcher's accumulated errors, the hard links created (`(source, mirror)`),
the `os.Remove` calls attempted in the development branch (each such call
targets a path `os.Stat` just reported absent, so each fails with ENOENT
and is only warned), the successful renames, and the files queued for RPM
signing (the signer subprocess outcomes are external and contribute only
catcher errors, on which no claim here depends). -/
structure LinkState where
  fs : FS
  errs : List String
  linked : List (String × String)
  removeAttempts : List String
  renames : List (String × String)
  signQueue : List String
deriving DecidableEq

/-- The development-build branch, job.go lines 141-170.  When `os.Stat`
reports the mirror ABSENT (`os.IsNotExist`), `os.Remove(mirror)` is
attempted (necessarily failing, warning only).  Then the first occurrence
of the version string in the mirror path is replaced by the series
string; when that changes the path, `os.Rename` moves the mirror — which
errors (aborting `linkPackages`) when the mirror file does not exist. -/
def devStep (release : MongoDBVersion) (st : LinkState) (mirror : String) :
    LinkState × Except String String :=
  let st1 :=
    if st.fs.statExists mirror then st
    else { st with removeAttempts := mirror :: st.removeAttempts }
  let nw := replaceFirst mirror release.ver release.series
  if nw = mirror then (st1, Except.ok mirror)
  else if memStr mirror st1.fs.files then
    ({ st1 with fs := st1.fs.renameFile mirror nw, renames := (mirror, nw) :: st1.renames },
      Except.ok nw)
  else (st1, Except.error "problem renaming development release")

/-- The final linking step, job.go lines 172-199: when the (possibly
renamed) mirror does not exist, `os.Link(pkg, mirror)` creates it (a link
failure — here, a missing source — is added to the catcher and the loop
continues); for RPM the new file is queued for signing.  An existing
mirror is left untouched. -/
def linkStep (dtype : RepoType) (st : LinkState) (pkg mirror : String) : LinkState :=
  if st.fs.statExists mirror then st
  else if memStr pkg st.fs.files then
    let st1 := { st with fs := st.fs.addFile mirror, linked := (pkg, mirror) :: st.linked }
    if dtype = RepoType.RPM then { st1 with signQueue := mirror :: st1.signQueue } else st1
  else
    { st with errs := ("problem copying package " ++ pkg ++ " to " ++ mirror) :: st.errs }

/-- One iteration of the `linkPackages` loop for the package `pkg`
(job.go lines 121-199).  The second component is `some e` when the
iteration ends `linkPackages` early with error `e` (the rename failure
path); `none` means the loop continues. -/
def processPackage (dtype : RepoType) (release : MongoDBVersion) (dest : String)
    (st : LinkState) (pkg : String) : LinkState × Option String :=
  if dtype = RepoType.DEB && !strEndsWith pkg ".deb" then (st, none)
  else
    let st1 := if st.fs.statExists dest then st else { st with fs := st.fs.addDir dest }
    let mirror := joinPath dest (basename pkg)
    if release.isDevelopmentBuild then
      match devStep release st1 mirror with
      | (st2, Except.error e) => (st2, some e)
      | (st2, Except.ok mirror2) => (linkStep dtype st2 pkg mirror2, none)
    else (linkStep dtype st1 pkg mirror, none)

/-- The `linkPackages` loop over the candidate package paths. -/
def linkPackagesLoop (dtype : RepoType) (release : MongoDBVersion) (dest : String) :
    LinkState → List String → LinkState × Option String
  | st, [] => (st, none)
  | st, pkg :: rest =>
    match processPackage dtype release dest st pkg with
    | (st1, some e) => (st1, some e)
    | (st1, none) => linkPackagesLoop dtype release dest st1 rest

/-- The fresh state `linkPackages` starts from over the filesystem `fs`. -/
def initLinkState (fs : FS) : LinkState :=
  { fs := fs, errs := [], linked := [], removeAttempts := [], renames := [], signQueue := [] }

/-- `repoBuilderJob.linkPackages`, job.go lines 117-203.  The second
component is the returned error: an early rename failure is returned
directly (the catcher's accumulated errors are dropped on that path, as
in the source); otherwise `catcher.Resolve()` yields an error exactly
when the catcher is non-empty. -/
def linkPackages (dtype : RepoType) (release : MongoDBVersion)
    (pkgPaths : List String) (dest : String) (fs : FS) : LinkState × Option String :=
  match linkPackagesLoop dtype release dest (initLinkState fs) pkgPaths with
  | (st, some e) => (st, some e)
  | (st, none) =>
    (st, if st.errs.isEmpty then none else some (String.intercalate "; " st.errs.reverse))

/-! ## The job and its Run orchestration (job.go lines 31-45, 98-115, 346-480) -/

/-- The fields of `repoBuilderJob` that `Run` reads.  `builder` is the
installed inject/rebuild implementation, tagged by format: `none` models
the nil interface a freshly constructed job carries into `setup`. -/
structure RepoBuilderJob where
  distro : Option RepositoryDefinition
  conf : RepositoryConfig
  release : MongoDBVersion
  packagePaths : List String
  builder : Option RepoType
deriving DecidableEq

/-- Job envelope state observable after `Run`: the merged error
accumulator, how many times `MarkComplete` ran, the accumulated
`workingDirs`, and the trace of storage/builder operations attempted. -/
inductive RunEvent
  | mkdir (localDir : String)
  | pull (localPath remotePath : String)
  | inject (localDir location : String)
  | rebuild (changed : String)
  | push (localPath remotePath : String)
deriving DecidableEq

structure RunState where
  errors : List String
  completedCount : Nat
  workingDirs : List String
  events : List RunEvent
deriving DecidableEq

def RunState.initial : RunState :=
  { errors := [], completedCount := 0, workingDirs := [], events := [] }

def addError (st : RunState) (e : String) : RunState :=
  { st with errors := st.errors ++ [e] }

/-- `j.MarkComplete()`. -/
def markComplete (st : RunState) : RunState :=
  { st with completedCount := st.completedCount + 1 }

/-- How `Run` finished: a normal return, or a propagating panic (a nil
pointer dereference in the Go source). -/
inductive RunResult
  | returned (st : RunState)
  | panicked (st : RunState)
deriving DecidableEq

def RunResult.state : RunResult → RunState
  | RunResult.returned st => st
  | RunResult.panicked st => st

def RunResult.isPanicked : RunResult → Bool
  | RunResult.returned _ => false
  | RunResult.panicked _ => true

/-- `repoBuilderJob.setup`, job.go lines 98-115.  Returns the state, the
installed builder, and whether setup panicked.  A non-nil builder returns
unchanged.  A nil distro records the missing-distro error and then
dereferences `j.Distro.Type` — a panic.  DEB/RPM install the matching
builder; any other type records the invalid-definition error and leaves
the builder nil. -/
def setup (j : RepoBuilderJob) (st : RunState) : RunState × Option RepoType × Bool :=
  match j.builder with
  | some b => (st, some b, false)
  | none =>
    match j.distro with
    | none => (addError st "invalid job definition, missing distro", none, true)
    | some d =>
      match d.type with
      | RepoType.DEB => (st, some RepoType.DEB, false)
      | RepoType.RPM => (st, some RepoType.RPM, false)
      | RepoType.other s => (addError st ("invalid distro definition " ++ s), none, false)

/-- Outcomes of the external collaborators `Run` calls, at the exact call
boundaries of the source: S3 bucket construction, `os.MkdirAll` per local
directory, `bucket.Pull` per remote, `builder.injectPackage` per local
staging directory (changed directory or error), `builder.rebuildRepo` per
changed directory, and `bucket.Push` per remote. -/
structure RunOutcomes where
  bucketErr : Bool
  mkdirOk : String → Bool
  pullOk : String → Bool
  injectResult : String → Except String String
  rebuildOk : String → Bool
  pushOk : String → Bool

/-- How one iteration of the remote loop ended: full pipeline success
(`ok`, continue with the next remote), an error with an early `return`
from `Run` (`earlyReturn`), or a panic (`panicked` — the nil builder
dereferenced at the injection step). -/
inductive LoopExit
  | ok
  | earlyReturn
  | panicked
deriving DecidableEq

/-- `repoBuilderJob.getPackageLocation`, job.go lines 209-220: development
builds go to the `development` repo, release candidates to `testing`, and
everything else to the per-series repo. -/
def getPackageLocation (release : MongoDBVersion) : String :=
  if release.isDevelopmentBuild then "development"
  else if release.isReleaseCandidate then "testing"
  else release.series

/-- One iteration of `Run`'s remote loop, job.go lines 383-464, producing
the events attempted, the errors recorded, and how the iteration ended.
The pipeline is sequential: mkdir, pull (both sync paths extended by
`getPackageLocation`), inject, rebuild, then the push-source computation
(DEB: parent of the changed component; RPM: the changed directory;
other: unsupported-upload error) and the push. -/
def runRemote (ws : String) (dtype : RepoType) (builder : Option RepoType)
    (release : MongoDBVersion) (o : RunOutcomes) (r : String) :
    List RunEvent × List String × LoopExit :=
  let l := joinPath ws r
  if o.mkdirOk l then
    let loc := getPackageLocation release
    let ev1 := [RunEvent.mkdir l, RunEvent.pull (joinPath l loc) (joinPath r loc)]
    if o.pullOk r then
      match builder with
      | none => (ev1, [], LoopExit.panicked)
      | some _ =>
        let ev2 := ev1 ++ [RunEvent.inject l loc]
        match o.injectResult l with
        | Except.error e =>
          (ev2, ["problem copying packages into staging repos: " ++ e], LoopExit.earlyReturn)
        | Except.ok changed =>
          let ev3 := ev2 ++ [RunEvent.rebuild changed]
          if o.rebuildOk changed then
            match dtype with
            | RepoType.other s =>
              (ev3, ["curator does not support uploading " ++ s ++ " repos"],
                LoopExit.earlyReturn)
            | RepoType.DEB =>
              let syncSource := dirname changed
              let comp := dirname (strDrop changed (strLen l + 1))
              let ev4 := ev3 ++ [RunEvent.push syncSource (joinPath r comp)]
              if o.pushOk r then (ev4, [], LoopExit.ok)
              else (ev4, ["problem uploading " ++ syncSource], LoopExit.earlyReturn)
            | RepoType.RPM =>
              let comp := strDrop changed (strLen l + 1)
              let ev4 := ev3 ++ [RunEvent.push changed (joinPath r comp)]
              if o.pushOk r then (ev4, [], LoopExit.ok)
              else (ev4, ["problem uploading " ++ changed], LoopExit.earlyReturn)
          else (ev3, ["problem building repo in " ++ changed], LoopExit.earlyReturn)
    else (ev1, ["problem syncing from " ++ r ++ " to " ++ l], LoopExit.earlyReturn)
  else ([RunEvent.mkdir l], ["problem creating directory " ++ l], LoopExit.earlyReturn)

/-- The remote loop: sequential over `Distro.Repos`; a non-`ok` exit stops
the loop at that remote.  Returns the working directories appended, the
events, the errors, and the final exit. -/
def runRemotes (ws : String) (dtype : RepoType) (builder : Option RepoType)
    (release : MongoDBVersion) (o : RunOutcomes) :
    List String → List String × List RunEvent × List String × LoopExit
  | [] => ([], [], [], LoopExit.ok)
  | r :: rs =>
    match runRemote ws dtype builder release o r with
    | (ev, errs, LoopExit.ok) =>
      match runRemotes ws dtype builder release o rs with
      | (ds, evs, es, ex) => (r :: ds, ev ++ evs, errs ++ es, ex)
    | (ev, errs, ex) => ([r], ev, errs, ex)

/-- `repoBuilderJob.Run`, job.go lines 346-480.  After `setup` (whose
panic propagates), the S3 bucket is constructed; on failure the error is
recorded and `Run` returns — BEFORE `defer j.MarkComplete()` is
installed at line 363, so that path never marks completion.  After the
defer is installed the remote loop runs; the deferred `MarkComplete`
fires exactly once on every later path, including the in-loop panic
(deferred calls run during a Go panic unwind).  The timeout selection of
lines 367-380 configures the context deadline for the external pull/push
calls and is part of the outcome oracle here. -/
def run (j : RepoBuilderJob) (o : RunOutcomes) : RunResult :=
  match setup j RunState.initial with
  | (st, _, true) => RunResult.panicked st
  | (st, builder, false) =>
    match j.distro with
    | none => RunResult.panicked st
    | some d =>
      if o.bucketErr then
        RunResult.returned (addError st ("problem getting s3 bucket " ++ d.bucket))
      else
        match runRemotes j.conf.workSpace d.type builder j.release o d.repos with
        | (ds, evs, errs, ex) =>
          let st1 := { st with
            workingDirs := st.workingDirs ++ ds
            events := st.events ++ evs
            errors := st.errors ++ errs }
          match ex with
          | LoopExit.panicked => RunResult.panicked (markComplete st1)
          | _ => RunResult.returned (markComplete st1)

/-! ## Concrete instances used by witnesses and counterexamples -/

/-- A stable release of series `4.0`. -/
def relStable : MongoDBVersion :=
  { ver := "4.0.2", series := "4.0", stableSeries := "4.0",
    isDevelopmentBuild := false, isReleaseCandidate := false, isDevelopmentSeries := false }

/-- A development build whose version string `1.2.3-alpha` contains the
series `1.2`. -/
def relDev : MongoDBVersion :=
  { ver := "1.2.3-alpha", series := "1.2", stableSeries := "1.2",
    isDevelopmentBuild := true, isReleaseCandidate := false, isDevelopmentSeries := true }

/-- A legacy DEB release of series `2.6`. -/
def relLegacy : MongoDBVersion :=
  { ver := "2.6.4", series := "2.6", stableSeries := "2.6",
    isDevelopmentBuild := false, isReleaseCandidate := false, isDevelopmentSeries := false }

def confT : RepositoryConfig :=
  { workSpace := "ws", dryRun := false, verbose := false, notaryURL := "https://n" }

/-- An RPM distro with two remote repository paths. -/
def dTwoRemotes : RepositoryDefinition :=
  { name := "rhel", type := RepoType.RPM, bucket := "bkt", region := "us", repos := ["r1", "r2"] }

def jTwoRemotes : RepoBuilderJob :=
  { distro := some dTwoRemotes, conf := confT, release := relStable,
    packagePaths := [], builder := none }

/-- Outcomes where only the pull of remote `r1` fails. -/
def oPullFailR1 : RunOutcomes :=
  { bucketErr := false, mkdirOk := fun _ => true, pullOk := fun r => r ≠ "r1",
    injectResult := fun l => Except.ok (joinPath l "4.0"),
    rebuildOk := fun _ => true, pushOk := fun _ => true }

/-- Outcomes where only the pull of remote `r2` fails. -/
def oPullFailR2 : RunOutcomes :=
  { bucketErr := false, mkdirOk := fun _ => true, pullOk := fun r => r ≠ "r2",
    injectResult := fun l => Except.ok (joinPath l "4.0"),
    rebuildOk := fun _ => true, pushOk := fun _ => true }

/-- Outcomes where every external call succeeds. -/
def oAllOk : RunOutcomes :=
  { bucketErr := false, mkdirOk := fun _ => true, pullOk := fun _ => true,
    injectResult := fun l => Except.ok (joinPath l "4.0"),
    rebuildOk := fun _ => true, pushOk := fun _ => true }

/-- Outcomes where S3 bucket construction fails. -/
def oBucketFail : RunOutcomes :=
  { bucketErr := true, mkdirOk := fun _ => true, pullOk := fun _ => true,
    injectResult := fun l => Except.ok (joinPath l "4.0"),
    rebuildOk := fun _ => true, pushOk := fun _ => true }

/-- A distro whose format type is neither DEB nor RPM. -/
def dUnsupported : RepositoryDefinition :=
  { name := "x", type := RepoType.other "archive", bucket := "bkt", region := "us",
    repos := ["r1"] }

def jUnsupported : RepoBuilderJob :=
  { distro := some dUnsupported, conf := confT, release := relStable,
    packagePaths := [], builder := none }

/-- A job whose distro definition is missing. -/
def jNoDistro : RepoBuilderJob :=
  { distro := none, conf := confT, release := relStable, packagePaths := [], builder := none }

/-- Staging state with a prior development mirror present at the literal
version-named destination `repo/tool-1.2.3-alpha.rpm`. -/
def stMirrorExists : LinkState := initLinkState
  { files := ["in/tool-1.2.3-alpha.rpm", "repo/tool-1.2.3-alpha.rpm"], dirs := ["repo"] }

/-- Staging state with no file at the version-named destination. -/
def stMirrorAbsent : LinkState := initLinkState
  { files := ["in/tool-1.2.3-alpha.rpm"], dirs := ["repo"] }

/-- Staging state where only the series-renamed destination
`repo/tool-1.2.rpm` exists (the state a successful development
re-injection would find). -/
def stRenamedExists : LinkState := initLinkState
  { files := ["in/tool-1.2.3-alpha.rpm", "repo/tool-1.2.rpm"], dirs := ["repo"] }

/-- Environment with an explicit key-name override and a primary token. -/
def envOverride : SignEnv :=
  { notaryKeyName := "k", notaryToken := "tok", notaryTokenDebLegacy := "" }

/-- Environment with nothing set. -/
def envEmpty : SignEnv :=
  { notaryKeyName := "", notaryToken := "", notaryTokenDebLegacy := "" }

/-- A successful signer subprocess with untrimmed combined output. -/
def procOk : ProcOutcome := { ok := true, out := " signed \n" }

def fsSign : FS := { files := ["repo/x.rpm"], dirs := ["repo"] }

/-! ## C7: DEB candidates without the `.deb` suffix are skipped -/

/-- C7 (confirmed): for a DEB distro, a candidate package path whose name
does not end in `.deb` is skipped by injection — the loop iteration
leaves the state untouched (nothing copied into the staging tree) and
contributes no error. -/
theorem deb_nonpackage_skipped (release : MongoDBVersion) (dest : String)
    (st : LinkState) (pkg : String) (h : strEndsWith pkg ".deb" = false) :
    processPackage RepoType.DEB release dest st pkg = (st, none) := by
  simp [processPackage, h]

/-- Witness for `deb_nonpackage_skipped` at the generated index file
`in/Packages`. -/
theorem deb_nonpackage_skipped_inst :
    strEndsWith "in/Packages" ".deb" = false ∧
    processPackage RepoType.DEB relStable "repo" stMirrorAbsent "in/Packages" =
      (stMirrorAbsent, none) :=
  ⟨by decide, deb_nonpackage_skipped relStable "repo" stMirrorAbsent "in/Packages" (by decide)⟩

/-! ## C9: signing-key selection order -/

/-- C9 (confirmed): key selection follows the order (a) explicit
`NOTARY_KEY_NAME` override; (b) DEB with release series in the fixed
legacy set, yielding the fixed key `richard` together with the legacy
auth-token source; (c) a key derived from the stable release series. -/
theorem sign_key_selection_order (env : SignEnv) (t : RepoType) (r : MongoDBVersion) :
    (env.notaryKeyName ≠ "" →
      selectKeyToken env t r = (env.notaryKeyName, env.notaryToken)) ∧
    (env.notaryKeyName = "" → t = RepoType.DEB →
      (r.series = "3.0" ∨ r.series = "2.6") →
      selectKeyToken env t r = ("richard", env.notaryTokenDebLegacy)) ∧
    (env.notaryKeyName = "" →
      ¬(t = RepoType.DEB ∧ (r.series = "3.0" ∨ r.series = "2.6")) →
      selectKeyToken env t r = ("server-" ++ r.stableSeries, env.notaryToken)) := by
  refine ⟨fun h => ?_, fun h ht hs => ?_, fun h hn => ?_⟩
  · simp [selectKeyToken, h]
  · simp [selectKeyToken, h, ht, hs]
  · simp only [selectKeyToken, h, if_true, if_pos rfl]
    rw [if_neg hn]

/-- Witness for `sign_key_selection_order`: the legacy branch fires for a
DEB series-2.6 release with no override. -/
theorem sign_key_selection_order_inst :
    envEmpty.notaryKeyName = "" ∧
    selectKeyToken envEmpty RepoType.DEB relLegacy = ("richard", envEmpty.notaryTokenDebLegacy) :=
  ⟨by decide,
    (sign_key_selection_order envEmpty RepoType.DEB relLegacy).2.1 rfl rfl (Or.inr rfl)⟩

/-! ## C8: missing auth token fails the signing call before any side effect -/

/-- C8 (confirmed): when the token the code resolves from the environment
is empty — in particular when no auth token is resolvable at all — the
signing call returns the error naming the missing `NOTARY_TOKEN`, with
no subprocess launched, the filesystem untouched and the output map
untouched. -/
theorem sign_missing_token_no_subprocess (env : SignEnv) (t : RepoType)
    (r : MongoDBVersion) (conf : RepositoryConfig) (proc : ProcOutcome)
    (jobOutput : List (String × String)) (fs : FS)
    (fileName archiveExtension : String) (ow : Bool)
    (h : (selectKeyToken env t r).2 = "") :
    signFile env t r conf proc jobOutput fs fileName archiveExtension ow =
      { err := some notaryTokenMissingMsg, launched := false, cmd := [], cmdDir := "",
        fs := fs, output := jobOutput, loggedOutput := none } ∧
    containsSub notaryTokenMissingMsg "NOTARY_TOKEN" = true := by
  constructor
  · simp [signFile, h]
  · decide

/-- Witness for `sign_missing_token_no_subprocess` in the empty
environment. -/
theorem sign_missing_token_no_subprocess_inst :
    (selectKeyToken envEmpty RepoType.RPM relStable).2 = "" ∧
    signFile envEmpty RepoType.RPM relStable confT procOk [] fsSign "repo/x.rpm" "" true =
      { err := some notaryTokenMissingMsg, launched := false, cmd := [], cmdDir := "",
        fs := fsSign, output := [], loggedOutput := none } :=
  ⟨by decide,
    (sign_missing_token_no_subprocess envEmpty RepoType.RPM relStable confT procOk []
      fsSign "repo/x.rpm" "" true (by decide)).1⟩

/-! ## C5: retention of the signer's combined output -/

/-- C5 counterexample: a successful signing invocation (`err = none`)
after which the job's output log holds nothing under the signed file's
path — the claim that the trimmed output is retained there fails. -/
theorem sign_output_missing_cex :
    (signFile envOverride RepoType.RPM relStable confT procOk [] fsSign
        "repo/x.rpm" "" true).err = none ∧
    (signFile envOverride RepoType.RPM relStable confT procOk [] fsSign
        "repo/x.rpm" "" true).output.lookup "repo/x.rpm" = none := by
  decide

/-- C5 (corrected): after a signing invocation that launches the signer,
whether it succeeds or fails, the trimmed combined output is carried in
the log message for the attempt, but the job's output log map is never
written — it is returned exactly as it was. -/
theorem sign_output_logged_not_retained (env : SignEnv) (t : RepoType)
    (r : MongoDBVersion) (conf : RepositoryConfig) (proc : ProcOutcome)
    (jobOutput : List (String × String)) (fs : FS)
    (fileName archiveExtension : String) (ow : Bool) :
    (signFile env t r conf proc jobOutput fs fileName archiveExtension ow).output
      = jobOutput ∧
    ((selectKeyToken env t r).2 ≠ "" →
      (signFile env t r conf proc jobOutput fs fileName archiveExtension ow).loggedOutput
        = some (trimOutput proc.out)) := by
  constructor
  · by_cases h : (selectKeyToken env t r).2 = ""
    · simp [signFile, h]
    · cases hp : proc.ok <;> simp [signFile, h, hp]
  · intro h
    cases hp : proc.ok <;> simp [signFile, h, hp]

/-- Witness for `sign_output_logged_not_retained` on a successful signing
with a non-empty resolved token. -/
theorem sign_output_logged_not_retained_inst :
    (selectKeyToken envOverride RepoType.RPM relStable).2 ≠ "" ∧
    (signFile envOverride RepoType.RPM relStable confT procOk [] fsSign
        "repo/x.rpm" "" true).loggedOutput = some (trimOutput procOk.out) :=
  ⟨by decide,
    (sign_output_logged_not_retained envOverride RepoType.RPM relStable confT procOk []
      fsSign "repo/x.rpm" "" true).2 (by decide)⟩

/-! ## C4: development-build removal and rename in `linkPackages` -/

/-- C4 (code bug): the removal check at job.go line 142 is inverted.
With a prior mirror PRESENT at the literal version-named destination, no
`os.Remove` is attempted at all and the mirror is renamed to the series
name instead; with the mirror ABSENT, the removal IS attempted (against
a path `os.Stat` just reported missing, so it necessarily fails and is
only warned) and the subsequent rename of the missing mirror aborts
`linkPackages` with an error. -/
theorem dev_prior_mirror_not_removed_eval :
    (stMirrorExists.fs.files.contains "repo/tool-1.2.3-alpha.rpm" = true ∧
     (processPackage RepoType.RPM relDev "repo" stMirrorExists
        "in/tool-1.2.3-alpha.rpm").1.removeAttempts = [] ∧
     (processPackage RepoType.RPM relDev "repo" stMirrorExists
        "in/tool-1.2.3-alpha.rpm").1.renames =
       [("repo/tool-1.2.3-alpha.rpm", "repo/tool-1.2.rpm")]) ∧
    (stMirrorAbsent.fs.statExists "repo/tool-1.2.3-alpha.rpm" = false ∧
     (processPackage RepoType.RPM relDev "repo" stMirrorAbsent
        "in/tool-1.2.3-alpha.rpm").1.removeAttempts = ["repo/tool-1.2.3-alpha.rpm"] ∧
     (processPackage RepoType.RPM relDev "repo" stMirrorAbsent
        "in/tool-1.2.3-alpha.rpm").2 = some "problem renaming development release") := by
  decide

/-! ## C6: idempotency of injection per destination -/

/-- C6 counterexample: a development build whose series-renamed
destination `repo/tool-1.2.rpm` already exists.  The claim promises a
no-op with no error, but injection aborts with the rename error (the
version-named mirror it tries to rename does not exist). -/
theorem inject_dev_renamed_errors_cex :
    stRenamedExists.fs.files.contains "repo/tool-1.2.rpm" = true ∧
    replaceFirst (joinPath "repo" (basename "in/tool-1.2.3-alpha.rpm"))
        relDev.ver relDev.series = "repo/tool-1.2.rpm" ∧
    (processPackage RepoType.RPM relDev "repo" stRenamedExists
       "in/tool-1.2.3-alpha.rpm").1.linked = [] ∧
    (processPackage RepoType.RPM relDev "repo" stRenamedExists
       "in/tool-1.2.3-alpha.rpm").2 = some "problem renaming development release" := by
  decide

/-- C6 (corrected): injection is idempotent per destination for every
candidate outside the broken development-rename path: (i) for a
non-development classification, an existing destination means the
iteration is a complete no-op — no link, no error, state unchanged;
(ii) when the destination does not exist and the source does, the source
is hard-linked into place (and queued for signing for RPM); (iii) for a
development build whose destination name does not contain the version
string, an existing destination is likewise a complete no-op.  (For a
development build whose destination name contains the version string and
whose renamed destination already exists, injection instead fails with
the rename error.) -/
theorem inject_idempotent_cases (t : RepoType) (release : MongoDBVersion)
    (dest : String) (st : LinkState) (pkg : String) :
    (release.isDevelopmentBuild = false →
      st.fs.statExists dest = true →
      st.fs.statExists (joinPath dest (basename pkg)) = true →
      processPackage t release dest st pkg = (st, none)) ∧
    (release.isDevelopmentBuild = false →
      st.fs.statExists dest = true →
      st.fs.statExists (joinPath dest (basename pkg)) = false →
      memStr pkg st.fs.files = true →
      (t = RepoType.DEB → strEndsWith pkg ".deb" = true) →
      processPackage t release dest st pkg =
        ({ st with
            fs := st.fs.addFile (joinPath dest (basename pkg))
            linked := (pkg, joinPath dest (basename pkg)) :: st.linked
            signQueue := if t = RepoType.RPM then
                joinPath dest (basename pkg) :: st.signQueue
              else st.signQueue }, none)) ∧
    (release.isDevelopmentBuild = true →
      st.fs.statExists dest = true →
      st.fs.statExists (joinPath dest (basename pkg)) = true →
      replaceFirst (joinPath dest (basename pkg)) release.ver release.series
        = joinPath dest (basename pkg) →
      processPackage t release dest st pkg = (st, none)) := by
  refine ⟨fun hdev hdest hmir => ?_, fun hdev hdest hmir hpkg hdeb => ?_,
    fun hdev hdest hmir hrep => ?_⟩
  · by_cases hskip : t = RepoType.DEB ∧ strEndsWith pkg ".deb" = false
    · rcases hskip with ⟨ht, hs⟩
      simp [processPackage, ht, hs]
    · rcases t with _ | _ | s
      · rcases hs : strEndsWith pkg ".deb"
        · exact absurd ⟨rfl, hs⟩ hskip
        · simp [processPackage, hs, hdev, hdest, linkStep, hmir]
      · simp [processPackage, hdev, hdest, linkStep, hmir]
      · simp [processPackage, hdev, hdest, linkStep, hmir]
  · rcases t with _ | _ | s
    · simp [processPackage, hdeb rfl, hdev, hdest, linkStep, hmir, hpkg]
    · simp [processPackage, hdev, hdest, linkStep, hmir, hpkg]
    · simp [processPackage, hdev, hdest, linkStep, hmir, hpkg]
  · by_cases hskip : t = RepoType.DEB ∧ strEndsWith pkg ".deb" = false
    · rcases hskip with ⟨ht, hs⟩
      simp [processPackage, ht, hs]
    · rcases t with _ | _ | s
      · rcases hs : strEndsWith pkg ".deb"
        · exact absurd ⟨rfl, hs⟩ hskip
        · simp [processPackage, hs, hdev, hdest, devStep, hmir, hrep, linkStep]
      · simp [processPackage, hdev, hdest, devStep, hmir, hrep, linkStep]
      · simp [processPackage, hdev, hdest, devStep, hmir, hrep, linkStep]

/-- Witness for `inject_idempotent_cases`: re-injecting a package whose
destination already exists is a complete no-op. -/
theorem inject_idempotent_cases_inst :
    relStable.isDevelopmentBuild = false ∧
    processPackage RepoType.RPM relStable "repo" stRenamedExists "in/tool-1.2.rpm" =
      (stRenamedExists, none) :=
  ⟨by decide,
    (inject_idempotent_cases RepoType.RPM relStable "repo" stRenamedExists
      "in/tool-1.2.rpm").1 rfl (by decide) (by decide)⟩

/-! ## Helper lemmas about the remote loop -/

/-- A remote whose staging directory is created but whose pull fails:
the iteration records the mkdir and pull attempts (the pull paths extend
both sides by `getPackageLocation`), one error, and an early return. -/
theorem runRemote_pull_fail (ws : String) (dtype : RepoType) (builder : Option RepoType)
    (release : MongoDBVersion) (o : RunOutcomes) (r : String)
    (hm : o.mkdirOk (joinPath ws r) = true) (hp : o.pullOk r = false) :
    runRemote ws dtype builder release o r =
      ([RunEvent.mkdir (joinPath ws r),
        RunEvent.pull (joinPath (joinPath ws r) (getPackageLocation release))
          (joinPath r (getPackageLocation release))],
       ["problem syncing from " ++ r ++ " to " ++ joinPath ws r],
       LoopExit.earlyReturn) := by
  simp [runRemote, hm, hp]

/-- A remote whose whole RPM pipeline succeeds: the five steps are
attempted in order and the iteration ends `ok` with no error. -/
theorem runRemote_rpm_ok (ws : String) (builder : RepoType) (release : MongoDBVersion)
    (o : RunOutcomes) (r c : String)
    (hm : o.mkdirOk (joinPath ws r) = true) (hp : o.pullOk r = true)
    (hi : o.injectResult (joinPath ws r) = Except.ok c) (hb : o.rebuildOk c = true)
    (hq : o.pushOk r = true) :
    runRemote ws RepoType.RPM (some builder) release o r =
      ([RunEvent.mkdir (joinPath ws r),
        RunEvent.pull (joinPath (joinPath ws r) (getPackageLocation release))
          (joinPath r (getPackageLocation release)),
        RunEvent.inject (joinPath ws r) (getPackageLocation release),
        RunEvent.rebuild c,
        RunEvent.push c (joinPath r (strDrop c (strLen (joinPath ws r) + 1)))],
       [], LoopExit.ok) := by
  simp [runRemote, hm, hp, hi, hb, hq]

/-! ## C1: failure isolation between remotes in `Run` -/

/-- C1 counterexample: two remotes where only `r1`'s pull fails.  `Run`
returns after recording the single pull error; the other remote `r2` is
never processed — no inject (or any other) event for it exists — even
though every one of its steps would succeed. -/
theorem run_remote_failure_cex :
    run jTwoRemotes oPullFailR1 =
      RunResult.returned
        { errors := ["problem syncing from r1 to ws/r1"], completedCount := 1,
          workingDirs := ["r1"],
          events := [RunEvent.mkdir "ws/r1", RunEvent.pull "ws/r1/4.0" "r1/4.0"] } ∧
    (run jTwoRemotes oPullFailR1).state.events.contains
      (RunEvent.inject "ws/r2" "4.0") = false ∧
    (run jTwoRemotes oPullFailR1).state.errors.length = 1 := by
  decide

/-- C1 (corrected): the remotes are processed sequentially in
configuration order, not concurrently, and a failure at one remote's
pull aborts the ENTIRE `Run`, not just that remote: (i) when the first
remote's pull fails, `Run` returns with exactly that one error and no
step of the second remote is attempted; (ii) when the second remote's
pull fails, the first remote has already completed its full pipeline
(inject, rebuild, push) and the merged accumulator contains exactly one
error. -/
theorem run_remote_failure_aborts_run (nm bk rg ws r1 r2 nu : String) (dr vb : Bool)
    (release : MongoDBVersion) (pp : List String) (o : RunOutcomes) :
    (o.bucketErr = false → o.mkdirOk (joinPath ws r1) = true → o.pullOk r1 = false →
      run { distro := some { name := nm, type := RepoType.RPM, bucket := bk, region := rg,
                             repos := [r1, r2] },
            conf := { workSpace := ws, dryRun := dr, verbose := vb, notaryURL := nu },
            release := release, packagePaths := pp, builder := none } o =
        RunResult.returned
          { errors := ["problem syncing from " ++ r1 ++ " to " ++ joinPath ws r1],
            completedCount := 1, workingDirs := [r1],
            events := [RunEvent.mkdir (joinPath ws r1),
                       RunEvent.pull (joinPath (joinPath ws r1) (getPackageLocation release))
                         (joinPath r1 (getPackageLocation release))] }) ∧
    (∀ c1 : String,
      o.bucketErr = false →
      o.mkdirOk (joinPath ws r1) = true → o.pullOk r1 = true →
      o.injectResult (joinPath ws r1) = Except.ok c1 → o.rebuildOk c1 = true →
      o.pushOk r1 = true →
      o.mkdirOk (joinPath ws r2) = true → o.pullOk r2 = false →
      run { distro := some { name := nm, type := RepoType.RPM, bucket := bk, region := rg,
                             repos := [r1, r2] },
            conf := { workSpace := ws, dryRun := dr, verbose := vb, notaryURL := nu },
            release := release, packagePaths := pp, builder := none } o =
        RunResult.returned
          { errors := ["problem syncing from " ++ r2 ++ " to " ++ joinPath ws r2],
            completedCount := 1, workingDirs := [r1, r2],
            events := [RunEvent.mkdir (joinPath ws r1),
                       RunEvent.pull (joinPath (joinPath ws r1) (getPackageLocation release))
                         (joinPath r1 (getPackageLocation release)),
                       RunEvent.inject (joinPath ws r1) (getPackageLocation release),
                       RunEvent.rebuild c1,
                       RunEvent.push c1
                         (joinPath r1 (strDrop c1 (strLen (joinPath ws r1) + 1))),
                       RunEvent.mkdir (joinPath ws r2),
                       RunEvent.pull (joinPath (joinPath ws r2) (getPackageLocation release))
                         (joinPath r2 (getPackageLocation release))] }) := by
  constructor
  · intro hb hm hp
    simp [run, setup, hb, runRemotes,
      runRemote_pull_fail ws RepoType.RPM (some RepoType.RPM) release o r1 hm hp,
      RunState.initial, markComplete]
  · intro c1 hb hm1 hp1 hi hrb hpu hm2 hp2
    simp [run, setup, hb, runRemotes,
      runRemote_rpm_ok ws RepoType.RPM release o r1 c1 hm1 hp1 hi hrb hpu,
      runRemote_pull_fail ws RepoType.RPM (some RepoType.RPM) release o r2 hm2 hp2,
      RunState.initial, markComplete]

/-- Witness for `run_remote_failure_aborts_run` at two concrete remotes
with the second remote's pull failing. -/
theorem run_remote_failure_aborts_run_inst :
    (oPullFailR2.bucketErr = false ∧ oPullFailR2.pullOk "r2" = false) ∧
    run jTwoRemotes oPullFailR2 =
      RunResult.returned
        { errors := ["problem syncing from r2 to ws/r2"], completedCount := 1,
          workingDirs := ["r1", "r2"],
          events := [RunEvent.mkdir "ws/r1", RunEvent.pull "ws/r1/4.0" "r1/4.0",
                     RunEvent.inject "ws/r1" "4.0", RunEvent.rebuild "ws/r1/4.0",
                     RunEvent.push "ws/r1/4.0" "r1/4.0",
                     RunEvent.mkdir "ws/r2", RunEvent.pull "ws/r2/4.0" "r2/4.0"] } :=
  ⟨⟨rfl, rfl⟩, by
    have h := (run_remote_failure_aborts_run "rhel" "bkt" "us" "ws" "r1" "r2" "https://n"
      false false relStable [] oPullFailR2).2 "ws/r1/4.0" rfl rfl rfl rfl rfl rfl rfl rfl
    simpa using h⟩

/-! ## C2: setup failures are not fatal in `Run` -/

/-- C2 (code bug, evaluated at the failing inputs): with an unsupported
distro format type, `setup` records the error but `Run` does NOT return
— it proceeds into the remote loop, attempts the staging-directory
creation and the pull (storage I/O the claim forbids), and then panics
dereferencing the nil builder at the injection step (the deferred
completion mark still fires during the unwind).  With a missing distro
definition, `setup` records the error and then immediately panics on the
nil distro dereference instead of returning. -/
theorem setup_error_not_fatal_eval :
    ((run jUnsupported oAllOk).isPanicked = true ∧
     (run jUnsupported oAllOk).state.errors = ["invalid distro definition archive"] ∧
     (run jUnsupported oAllOk).state.events.contains
       (RunEvent.pull "ws/r1/4.0" "r1/4.0") = true) ∧
    (run jNoDistro oAllOk =
      RunResult.panicked
        { errors := ["invalid job definition, missing distro"], completedCount := 0,
          workingDirs := [], events := [] }) := by
  decide

/-! ## C3: completion marking on exit paths of `Run` -/

/-- C3 counterexample: when S3 bucket construction fails, `Run` returns
normally on a path reached before `defer j.MarkComplete()` is installed,
so the completion flag is never marked on that exit path. -/
theorem run_bucket_error_unmarked_cex :
    (run jTwoRemotes oBucketFail).isPanicked = false ∧
    (run jTwoRemotes oBucketFail).state.completedCount = 0 ∧
    (run jTwoRemotes oBucketFail).state.errors = ["problem getting s3 bucket bkt"] := by
  decide

/-- C3 (corrected): completion is marked exactly once on every exit path
reached after the storage bucket is successfully constructed (the point
where `defer j.MarkComplete()` is installed) — including error returns
from the remote loop and the in-loop panic unwind; but when bucket
construction fails, or when setup panics on a missing distro, `Run`
exits without marking completion. -/
theorem run_marks_complete_after_bucket (j : RepoBuilderJob) (o : RunOutcomes)
    (d : RepositoryDefinition) (hd : j.distro = some d) (hb : o.bucketErr = false) :
    (run j o).state.completedCount = 1 := by
  have h0 : (setup j RunState.initial).2.2 = false ∧
      (setup j RunState.initial).1.completedCount = 0 := by
    rcases hjb : j.builder with _ | b
    · rcases hdt : d.type with _ | _ | s <;>
        simp [setup, hjb, hd, hdt, addError, RunState.initial]
    · simp [setup, hjb, RunState.initial]
  rcases hs : setup j RunState.initial with ⟨st, b, pan⟩
  rw [hs] at h0
  rcases h0 with ⟨hpan, hcc⟩
  simp only at hpan hcc
  subst hpan
  unfold run
  rw [hs, hd]
  simp only [hb, Bool.false_eq_true, if_false]
  rcases hr : runRemotes j.conf.workSpace d.type b j.release o d.repos with ⟨ds, evs, errs, ex⟩
  cases ex <;> simp [markComplete, RunResult.state, hcc]

/-- Witness for `run_marks_complete_after_bucket`: an error return from
the remote loop still marks completion exactly once. -/
theorem run_marks_complete_after_bucket_inst :
    jTwoRemotes.distro = some dTwoRemotes ∧
    (run jTwoRemotes oPullFailR1).state.completedCount = 1 :=
  ⟨rfl, run_marks_complete_after_bucket jTwoRemotes oPullFailR1 dTwoRemotes rfl rfl⟩

/-! ## C10: the package-location subpath -/

/-- C10 (confirmed): the package-location subpath depends only on the
release classification — development builds map to `development`,
release candidates to `testing`, and anything else to the release's
series string — and the remote loop's pull paths extend both the local
staging directory and the remote path by exactly this subpath. -/
theorem package_location_classification :
    (∀ ra rb : MongoDBVersion, ra.isDevelopmentBuild = rb.isDevelopmentBuild →
      ra.isReleaseCandidate = rb.isReleaseCandidate → ra.series = rb.series →
      getPackageLocation ra = getPackageLocation rb) ∧
    (∀ r : MongoDBVersion,
      (r.isDevelopmentBuild = true → getPackageLocation r = "development") ∧
      (r.isDevelopmentBuild = false → r.isReleaseCandidate = true →
        getPackageLocation r = "testing") ∧
      (r.isDevelopmentBuild = false → r.isReleaseCandidate = false →
        getPackageLocation r = r.series)) ∧
    (∀ (ws : String) (dtype : RepoType) (builder : Option RepoType)
       (release : MongoDBVersion) (o : RunOutcomes) (r : String),
      o.mkdirOk (joinPath ws r) = true → o.pullOk r = false →
      runRemote ws dtype builder release o r =
        ([RunEvent.mkdir (joinPath ws r),
          RunEvent.pull (joinPath (joinPath ws r) (getPackageLocation release))
            (joinPath r (getPackageLocation release))],
         ["problem syncing from " ++ r ++ " to " ++ joinPath ws r],
         LoopExit.earlyReturn)) := by
  refine ⟨fun ra rb h1 h2 h3 => ?_, fun r => ⟨fun h => ?_, fun h1 h2 => ?_, fun h1 h2 => ?_⟩,
    fun ws dtype builder release o r hm hp => runRemote_pull_fail ws dtype builder release o r hm hp⟩
  · simp [getPackageLocation, h1, h2, h3]
  · simp [getPackageLocation, h]
  · simp [getPackageLocation, h1, h2]
  · simp [getPackageLocation, h1, h2]

/-- Witness for `package_location_classification`: a development build
stages into `development`, and a release candidate into `testing`. -/
theorem package_location_classification_inst :
    (relDev.isDevelopmentBuild = true ∧ getPackageLocation relDev = "development") ∧
    (relStable.isDevelopmentBuild = false ∧ relStable.isReleaseCandidate = false ∧
      getPackageLocation relStable = relStable.series) :=
  ⟨⟨rfl, (package_location_classification.2.1 relDev).1 rfl⟩,
   ⟨rfl, rfl, (package_location_classification.2.1 relStable).2.2 rfl rfl⟩⟩

end RepoBuilder
